import Mathlib

/-
Verification of the AgriGuard query-routing, parsing and scoring pipeline
(agro_mate). The definitions below are a shallow embedding of the Python
sources:
  agro_mate/agent.py                         (orchestrator AgriGuardSystem)
  agro_mate/subagents/expert_agent/agent.py  (BaseAgent parsing and scoring)
Python strings are modelled as Lean String values; every Python string
operation used by the source (lower, strip, split, slicing, membership,
replace, len, startswith) is implemented below by structural recursion on
the character list, mirroring CPython semantics for the ASCII texts the
system manipulates.
-/

namespace AgroMate

/-! ## Python string primitives -/

/-- ASCII lowercase of one character, as Python str.lower acts on ASCII. -/
def pyCharLower (c : Char) : Char :=
  if 65 ≤ c.toNat ∧ c.toNat ≤ 90 then Char.ofNat (c.toNat + 32) else c

/-- Python str.lower (the source only lowercases ASCII text). -/
def pyLower (s : String) : String := String.mk (s.data.map pyCharLower)

/-- Whitespace test used by Python str.strip. -/
def pyIsSpace (c : Char) : Bool :=
  c == ' ' || c == '\t' || c == '\n' || c == '\r' ||
    c == Char.ofNat 11 || c == Char.ofNat 12

/-- Python str.strip: remove whitespace from both ends. -/
def pyStrip (s : String) : String :=
  String.mk (((s.data.dropWhile pyIsSpace).reverse.dropWhile pyIsSpace).reverse)

/-- Does the needle occur at the head of the haystack? -/
def listLeads : List Char → List Char → Bool
  | [], _ => true
  | _ :: _, [] => false
  | a :: as, b :: bs => a == b && listLeads as bs

/-- Does the needle occur anywhere in the haystack? -/
def listWithin : List Char → List Char → Bool
  | n, [] => n.isEmpty
  | n, h :: t => listLeads n (h :: t) || listWithin n t

/-- Python substring membership: needle in hay. -/
def pyContains (hay needle : String) : Bool := listWithin needle.data hay.data

/-- Python str.startswith. -/
def pyStartsWith (s pre : String) : Bool := listLeads pre.data s.data

/-- Split a character list at every occurrence of the separator; like Python
str.split with an explicit separator, the result is never the empty list. -/
def splitOnChar (c : Char) : List Char → List (List Char)
  | [] => [[]]
  | x :: xs =>
    let r := splitOnChar c xs
    if x == c then [] :: r
    else
      match r with
      | [] => [[x]]
      | y :: ys => (x :: y) :: ys

/-- Python text.split with separator newline. -/
def pySplitLines (s : String) : List String :=
  (splitOnChar '\n' s.data).map String.mk

/-- Python slice s[:n]. -/
def pyTake (s : String) (n : Nat) : String := String.mk (s.data.take n)

/-- Python len on a string. -/
def pyLen (s : String) : Nat := s.data.length

/-- Python s.replace(c, two-character-free target) for a one-character
pattern and empty replacement: drop every occurrence of the character. -/
def pyDropChar (s : String) (c : Char) : String :=
  String.mk (s.data.filter (fun x => x != c))

/-! ## BaseAgent response structuring
(agro_mate/subagents/expert_agent/agent.py) -/

/-- Result of BaseAgent detect_emergency_indicators: the emergency-indicator
bundle stored under the emergency_indicators key of the structured dict.
The defaults model the falsy values Python dict.get supplies for a missing
key (.get(..., \x7b\x7d).get(...) yields None / 0 / absent). -/
structure EmergencyIndicators where
  emergency_detected : Bool := false
  emergency_score : Nat := 0
  keywords_found : List String := []
deriving DecidableEq

/-- Structured parse result: the dict produced by BaseAgent parse hooks and
consumed by the response-type and confidence scorers. Field defaults model
missing dict keys (dict.get falsy defaults). -/
structure StructuredResponse where
  summary : String := ""
  detailed_response : String := ""
  confidence : String := ""
  action_items : List String := []
  emergency_indicators : EmergencyIndicators := {}
deriving DecidableEq

/-- Fixed emergency keyword set of BaseAgent detect_emergency_indicators. -/
def emergency_keywords : List String :=
  ["urgent", "immediate", "emergency", "critical", "severe",
   "outbreak", "spreading", "dying", "damage", "loss"]

/-- BaseAgent detect_emergency_indicators: count keywords present in the
lowercased text; score is the count capped at 5, the detected flag compares
the uncapped count with 2. -/
def detect_emergency_indicators (text : String) : EmergencyIndicators :=
  let text_lower := pyLower text
  let emergency_score := emergency_keywords.foldl
    (fun acc keyword => acc + (if pyContains text_lower keyword then 1 else 0)) 0
  { emergency_detected := emergency_score > 2,
    emergency_score := min 5 emergency_score,
    keywords_found :=
      emergency_keywords.filter (fun kw => pyContains text_lower kw) }

/-- Action-indicator substrings of BaseAgent extract_action_items. -/
def action_indicators : List String :=
  ["immediately", "urgent", "action:", "do:", "apply:", "spray:", "contact:"]

/-- BaseAgent extract_action_items: per line, strip, look for an action
indicator in the lowercased line, clean bullet and dash characters, keep
cleaned lines longer than 10 characters, cap at 5 items. -/
def extract_action_items (text : String) : List String :=
  let actions := (pySplitLines text).filterMap (fun line =>
    let line := pyStrip line
    if action_indicators.any (fun ind => pyContains (pyLower line) ind) then
      let action := pyStrip (pyDropChar (pyDropChar line '•') '-')
      if action ≠ "" ∧ pyLen action > 10 then some action else none
    else none)
  actions.take 5

/-- BaseAgent parse_response fallback branch: first line of the stripped
text as summary (capped at 200), whole text as detailed response, medium
confidence, extracted action items and emergency indicators. The empty-list
summary default mirrors the Python expression
summary = lines[0] if lines else "Agricultural advice provided";
it is unreachable because str.split never returns an empty list. -/
def fallback_parse (raw_response : String) : StructuredResponse :=
  let lines := pySplitLines (pyStrip raw_response)
  let summary :=
    match lines with
    | [] => "Agricultural advice provided"
    | l :: _ => l
  { summary := pyTake summary 200,
    detailed_response := raw_response,
    confidence := "medium",
    action_items := extract_action_items raw_response,
    emergency_indicators := detect_emergency_indicators raw_response }

/-- BaseAgent parse_response: JSON decoding is attempted only when the
stripped text begins with an opening brace; a decode failure (or a text not
beginning with a brace) falls through to the heuristic fallback. The JSON
decoder itself lives outside this core (json.loads); it is passed as an
oracle returning none exactly on inputs that are not valid JSON objects. -/
def parse_response (decodeJson : String → Option StructuredResponse)
    (raw_response : String) : StructuredResponse :=
  if pyStartsWith (pyStrip raw_response) "\x7b" then
    match decodeJson raw_response with
    | some decoded => decoded
    | none => fallback_parse raw_response
  else fallback_parse raw_response

/-! ## Enumerations and farm context
(agro_mate/models, reconstructed only where needed) -/

/-- Response categories of the Agent Response (models/agent_response.py,
used by BaseAgent determine_response_type). -/
inductive ResponseType
  | EMERGENCY
  | WARNING
  | ACTION_REQUIRED
  | ADVISORY
deriving DecidableEq

/-- Confidence categories of the Agent Response (models/agent_response.py,
used by BaseAgent calculate_confidence). -/
inductive Confidence
  | VERY_HIGH
  | HIGH
  | MEDIUM
  | LOW
  | VERY_LOW
deriving DecidableEq

/-- Farm context: only the emergency level (ordinal scale 1 to 5) matters to
the verified pipeline logic. -/
structure FarmContext where
  emergency_level : Nat
deriving DecidableEq

/-- Modelled from the spec: FarmContext.is_emergency of the missing
models/farm_context.py — emergency when the level is at or above a low
threshold (spec 4.2 offers above 0 or at least 2; we take at least 2).
Claims use this predicate uniformly on the code side and the claim side, so
the exact threshold decides no claim; concrete witness contexts use levels
0 and 5, classified identically by either policy. -/
def FarmContext.is_emergency (c : FarmContext) : Bool :=
  decide (2 ≤ c.emergency_level)

/-! ## BaseAgent response-type scoring -/

/-- BaseAgent determine_response_type: first matching rule of
EMERGENCY / WARNING / ACTION_REQUIRED / ADVISORY wins. -/
def determine_response_type (sr : StructuredResponse)
    (context : FarmContext) : ResponseType :=
  if context.is_emergency || sr.emergency_indicators.emergency_detected then
    ResponseType.EMERGENCY
  else if sr.emergency_indicators.emergency_score > 1 then
    ResponseType.WARNING
  else if !sr.action_items.isEmpty then
    ResponseType.ACTION_REQUIRED
  else
    ResponseType.ADVISORY

/-! ## BaseAgent confidence scoring

CPython computes the confidence score in IEEE-754 double precision. Every
value the accumulation can reach lies in the binade [1/2, 1), where the
representable doubles are exactly the integer multiples of 2 ^ (-53). We
therefore model the computation in exact fixed-point arithmetic: an integer
counts units of 2 ^ (-55) (the unit in the last place of the double 0.1),
each constant below being the exact value of the corresponding double
literal, and addition rounds the exact sum to the nearest multiple of
4 units (= 2 ^ (-53)), ties to the even significand — the IEEE rule
restricted to this binade. Comparison of doubles is exact comparison of
their values, hence integer comparison here. -/

/-- Exact value of the double literal 0.7, in units of 2 ^ (-55):
0.7 rounds to 3152519739159347 * 2 ^ (-52) = 25220157913274776 units
(about 0.69999999999999995559). -/
def fp07 : ℤ := 25220157913274776

/-- Exact value of the double literal 0.1, in units of 2 ^ (-55):
0.1 rounds to 3602879701896397 * 2 ^ (-55)
(about 0.10000000000000000555). -/
def fp01 : ℤ := 3602879701896397

/-- Exact value of the double literal 0.9, in units of 2 ^ (-55):
0.9 rounds to 8106479329266893 * 2 ^ (-53) = 32425917317067572 units
(about 0.90000000000000002220). -/
def fp09 : ℤ := 32425917317067572

/-- The double 0.75 is exact in binary: 0.75 * 2 ^ 55 units. -/
def fp075 : ℤ := 27021597764222976

/-- The double 0.5 is exact in binary: 0.5 * 2 ^ 55 units. -/
def fp05 : ℤ := 18014398509481984

/-- The double 0.25 is exact in binary: 0.25 * 2 ^ 55 units. -/
def fp025 : ℤ := 9007199254740992

/-- IEEE double addition restricted to the binade [1/2, 1): add the exact
fixed-point values, then round to the nearest multiple of 4 units, a tie
going to the multiple of 4 whose 53-bit significand is even, that is, to
the multiple of 8 units. -/
def fpAdd (a b : ℤ) : ℤ :=
  let s := a + b
  let r := s % 4
  if r = 0 then s
  else if r = 1 then s - 1
  else if r = 3 then s + 1
  else if (s - 2) % 8 = 0 then s - 2 else s + 2

/-- BaseAgent calculate_confidence: base 0.7, three independent 0.1 bonuses
(detailed text present and longer than 100 characters, at least one action
item, parse-reported high confidence), then fixed thresholds 0.9 / 0.75 /
0.5 / 0.25. Arithmetic is double-precision floating point, as in CPython,
in the exact fixed-point model above. -/
def calculate_confidence (sr : StructuredResponse) : Confidence :=
  let s0 : ℤ := fp07
  let s1 := if sr.detailed_response ≠ "" ∧ pyLen sr.detailed_response > 100
    then fpAdd s0 fp01 else s0
  let s2 := if sr.action_items ≠ [] then fpAdd s1 fp01 else s1
  let s3 := if sr.confidence = "high" then fpAdd s2 fp01 else s2
  if s3 ≥ fp09 then Confidence.VERY_HIGH
  else if s3 ≥ fp075 then Confidence.HIGH
  else if s3 ≥ fp05 then Confidence.MEDIUM
  else if s3 ≥ fp025 then Confidence.LOW
  else Confidence.VERY_LOW

/-- Confidence scoring exactly as the specification words it, in exact real
arithmetic: start at 0.7, add 0.1 per satisfied condition, map by the
thresholds 0.9 / 0.75 / 0.5 / 0.25. All quantities are multiples of 0.05,
represented here exactly as integer counts of twentieths (0.7 = 14,
0.1 = 2, 0.9 = 18, 0.75 = 15, 0.5 = 10, 0.25 = 5). Stated from the words
of the spec, for comparison against calculate_confidence. -/
def calculate_confidence_specWords (sr : StructuredResponse) : Confidence :=
  let s0 : ℤ := 14
  let s1 := if pyLen sr.detailed_response > 100 then s0 + 2 else s0
  let s2 := if sr.action_items ≠ [] then s1 + 2 else s1
  let s3 := if sr.confidence = "high" then s2 + 2 else s2
  if s3 ≥ 18 then Confidence.VERY_HIGH
  else if s3 ≥ 15 then Confidence.HIGH
  else if s3 ≥ 10 then Confidence.MEDIUM
  else if s3 ≥ 5 then Confidence.LOW
  else Confidence.VERY_LOW

/-- Number of confidence bonuses a structured response earns. -/
def confidenceBonuses (sr : StructuredResponse) : Nat :=
  (if sr.detailed_response ≠ "" ∧ pyLen sr.detailed_response > 100
    then 1 else 0) +
  (if sr.action_items ≠ [] then 1 else 0) +
  (if sr.confidence = "high" then 1 else 0)

/-! ## Concrete structured responses used by the confidence claims -/

/-- A structured response earning exactly two confidence bonuses: detailed
text of 101 characters and one action item, confidence not high. -/
def srTwoBonuses : StructuredResponse :=
  { summary := "Pest issue detected",
    detailed_response := String.mk (List.replicate 101 'a'),
    confidence := "medium",
    action_items := ["Spray recommended fungicide immediately"] }

/-- A structured response earning exactly one confidence bonus. -/
def srOneBonus : StructuredResponse :=
  { confidence := "medium",
    action_items := ["Apply neem oil now"] }

/-! ## Agent Selector (agro_mate/agent.py, AgriGuardSystem._select_best_agent) -/

/-- Pest-profile keywords of _select_best_agent. -/
def pest_keywords : List String :=
  ["pest", "insect", "bug", "caterpillar", "aphid", "worm",
   "disease", "fungus", "leaf", "damage", "eating"]

/-- Weather-profile keywords of _select_best_agent. -/
def weather_keywords : List String :=
  ["weather", "rain", "storm", "hail", "wind", "temperature",
   "frost", "drought", "flood", "climate"]

/-- Resource-profile keywords of _select_best_agent. -/
def resource_keywords : List String :=
  ["water", "irrigation", "fertilizer", "nutrient", "soil",
   "efficiency", "cost", "resource", "optimize"]

/-- Market-profile keywords of _select_best_agent. -/
def market_keywords : List String :=
  ["price", "sell", "market", "buyer", "profit", "income",
   "harvest", "trade", "export"]

/-- Keyword score of one profile: the number of its keywords occurring as
substrings of the lowercased query. -/
def keywordScore (keywords : List String) (query_lower : String) : Nat :=
  keywords.foldl
    (fun acc keyword => acc + (if pyContains query_lower keyword then 1 else 0)) 0

/-- Python max(iterable, key=f): fold that keeps the current best and
replaces it only when a later element scores strictly higher, so the first
maximal element wins ties; none only on the empty list (where Python max
raises, a case the source never reaches). -/
def firstMaxBy {α : Type} (f : α → Nat) : List α → Option α
  | [] => none
  | x :: xs => some (xs.foldl (fun best y => if f best < f y then y else best) x)

/-- The agent registry keys, in dict insertion order. -/
def agent_names : List String := ["pest", "weather", "resource", "market"]

/-- AgriGuardSystem._select_best_agent: score the four profiles on the
lowercased query, take the first profile with the maximal score in the
fixed dict order pest, weather, resource, market (Python max over the dict
keys), then override to pest when the emergency level is at least 4 and
the pest score is positive. -/
def select_best_agent (query : String) (context : FarmContext) : String :=
  let query_lower := pyLower query
  let scores : List (String × Nat) :=
    [("pest", keywordScore pest_keywords query_lower),
     ("weather", keywordScore weather_keywords query_lower),
     ("resource", keywordScore resource_keywords query_lower),
     ("market", keywordScore market_keywords query_lower)]
  let best_agent_type :=
    match firstMaxBy Prod.snd scores with
    | some best => best.1
    | none => "pest"
  if 4 ≤ context.emergency_level ∧
      0 < keywordScore pest_keywords query_lower then "pest"
  else best_agent_type

/-! ## Orchestrator single-query pipeline
(agro_mate/agent.py, AgriGuardSystem.process_query)

Wall-clock durations are modelled as integer milliseconds: the source
computes float durations but only compares them (and scales the configured
second budget by 1000), so the integer model is exact for the instants
quantified over. -/

/-- The externally visible Agent Response. The fields are those the
orchestrator reads or writes; response_type and confidence_score hold the
literal strings the source stores (the BaseAgent enum members serialize to
their lowercase names, the orchestrator error path stores raw literals).
Defaults model the missing models/agent_response.py field defaults. -/
structure AgentResponse where
  agent_name : String := ""
  response_type : String := "advisory"
  summary : String := ""
  detailed_response : String := ""
  confidence_score : String := "medium"
  response_time_ms : ℤ := 0
  emergency_level : Nat := 0
  is_emergency : Bool := false
  escalation_required : Bool := false
  immediate_actions : List String := []
  response_id : String := ""
deriving DecidableEq

/-- Modelled from the spec: the decoding of a stored response_type string
into the four-category enumeration of the missing models/agent_response.py.
Spec sections 4.5 and 7 state that the substitute error response carries
category EMERGENCY when the context is in an emergency state and ADVISORY
otherwise; the orchestrator error path stores the literals "emergency" and
"information", so the missing model reads "emergency" as EMERGENCY and the
non-enumeration literal "information" as ADVISORY. -/
def categoryOfString (s : String) : ResponseType :=
  if s = "emergency" then ResponseType.EMERGENCY
  else if s = "warning" then ResponseType.WARNING
  else if s = "action_required" then ResponseType.ACTION_REQUIRED
  else ResponseType.ADVISORY

/-- The exceptions that can cross the try-block of process_query: the
unknown-agent AgriGuardException raised by the orchestrator itself, any
AgentException or GroqAPIException surfacing from the agent subpipeline
(prompt build, inference, parse, score), and the EmergencyTimeoutException
the orchestrator raises on a slow emergency response. -/
inductive PipelineError where
  | unknownAgent (agent_type : String)
  | agentFailure (message : String)
  | emergencyTimeout (elapsed_ms max_response_time_s : ℤ)
deriving DecidableEq

/-- Text of the exception as the except-branch formats it with str(e). The
unknown-agent text is the literal from agent.py; the other two classes live
in the missing exceptions.py, modelled from the spec as carrying their
message / a timeout description. -/
def PipelineError.text : PipelineError → String
  | PipelineError.unknownAgent t => "Unknown agent type: " ++ t
  | PipelineError.agentFailure m => m
  | PipelineError.emergencyTimeout _ _ => "Emergency response timeout"

/-- The substitute response built in the except-branch of process_query. -/
def error_response (e : PipelineError) (context : FarmContext)
    (elapsed_ms : ℤ) : AgentResponse :=
  { agent_name := "system",
    response_type := if context.is_emergency then "emergency" else "information",
    summary := "System error: " ++ e.text,
    detailed_response :=
      "An error occurred while processing your query: " ++ e.text,
    confidence_score := "low",
    response_time_ms := elapsed_ms }

/-- The try-block of AgriGuardSystem.process_query. Effects are explicit
inputs: run gives the outcome of the selected agent subpipeline
(BaseAgent.process_query, which wraps every internal failure in an
AgentException) and elapsed_ms the measured wall-clock time. The emergency
notification and the performance counters mutate state without affecting
the returned value and are omitted (notification runs before the timeout
check and its own failure would enter the same except-branch). -/
def process_query_attempt (query : String) (context : FarmContext)
    (agent_type : Option String)
    (run : String → Except PipelineError AgentResponse)
    (elapsed_ms max_response_time_s : ℤ) :
    Except PipelineError AgentResponse :=
  let selected : Except PipelineError String :=
    match agent_type with
    | some t =>
      if agent_names.contains t then Except.ok t
      else Except.error (PipelineError.unknownAgent t)
    | none => Except.ok (select_best_agent query context)
  match selected with
  | Except.error e => Except.error e
  | Except.ok t =>
    match run t with
    | Except.error e => Except.error e
    | Except.ok response =>
      let response := { response with response_time_ms := elapsed_ms }
      if context.is_emergency ∧ elapsed_ms > max_response_time_s * 1000 then
        Except.error
          (PipelineError.emergencyTimeout elapsed_ms max_response_time_s)
      else Except.ok response

/-- AgriGuardSystem.process_query: the try-block result, with every raised
exception caught and converted into the substitute error response. -/
def process_query (query : String) (context : FarmContext)
    (agent_type : Option String)
    (run : String → Except PipelineError AgentResponse)
    (elapsed_ms max_response_time_s : ℤ) : AgentResponse :=
  match process_query_attempt query context agent_type run
      elapsed_ms max_response_time_s with
  | Except.ok response => response
  | Except.error e => error_response e context elapsed_ms

/-! ## Concrete single-query pipeline instances -/

/-- A successfully computed emergency pipeline response, used to exercise
the slow-emergency path. -/
def rGood : AgentResponse :=
  { agent_name := "emergency_pest_agent",
    response_type := "emergency",
    summary := "Aphid outbreak identified",
    is_emergency := true,
    escalation_required := true }

/-- An agent subpipeline that succeeds with rGood. -/
def runGood : String → Except PipelineError AgentResponse :=
  fun _ => Except.ok rGood

/-! ## Orchestrator batch pipeline
(agro_mate/agent.py, AgriGuardSystem.process_batch_queries) -/

/-- Modelled from the spec: AgentResponse.calculate_urgency_score of the
missing models/agent_response.py — a numeric combining the emergency level,
the response-category rank (EMERGENCY over WARNING over ACTION_REQUIRED
over ADVISORY) and the confidence, monotone in the emergency level. The
batch claims depend only on first-maximum selection, not on the particular
combination. -/
def calculate_urgency_score (r : AgentResponse) : Nat :=
  r.emergency_level * 16 +
  (if r.response_type = "emergency" then 3
   else if r.response_type = "warning" then 2
   else if r.response_type = "action_required" then 1
   else 0) * 4 +
  (if r.confidence_score = "very_high" then 3
   else if r.confidence_score = "high" then 2
   else if r.confidence_score = "medium" then 1
   else 0)

/-- One slot of a batch call: the query record (query text and optional
agent_type, the keys of the Python dict) together with the per-task effect
inputs of its process_query invocation. -/
structure QueryTask where
  query : String
  agent_type : Option String := none
  run : String → Except PipelineError AgentResponse
  elapsed_ms : ℤ := 0

/-- The Batch Response record (models/agent_response.py): ordered surviving
responses, total elapsed time, and the id of the designated primary
response when one exists. -/
structure BatchResponse where
  query : String
  responses : List AgentResponse
  total_response_time_ms : ℤ
  primary_response : Option String := none

/-- The isinstance(r, AgentResponse) filter of the gather results. -/
def okToOption {β : Type} : Except PipelineError β → Option β
  | Except.ok a => some a
  | Except.error _ => none

/-- The asyncio.gather(..., return_exceptions=True) outcomes, one per task
in submission order. process_query catches every exception and returns a
response, so each outcome is an ok value; an exception object in this list
would require a failure mode outside the modelled semantics. -/
def gather_results (tasks : List QueryTask) (context : FarmContext)
    (max_response_time_s : ℤ) : List (Except PipelineError AgentResponse) :=
  tasks.map (fun task => Except.ok
    (process_query task.query context task.agent_type task.run
      task.elapsed_ms max_response_time_s))

/-- AgriGuardSystem.process_batch_queries: gather all tasks, keep the
outcomes that are AgentResponse instances, build the batch, and when any
response survived designate as primary the id of the first response with
the maximal urgency score (Python max semantics). -/
def process_batch_queries (tasks : List QueryTask) (context : FarmContext)
    (max_response_time_s total_elapsed_ms : ℤ) : BatchResponse :=
  let valid_responses :=
    (gather_results tasks context max_response_time_s).filterMap okToOption
  let batch : BatchResponse :=
    { query := "Batch of " ++ toString tasks.length ++ " queries",
      responses := valid_responses,
      total_response_time_ms := total_elapsed_ms }
  match firstMaxBy calculate_urgency_score valid_responses with
  | some primary => { batch with primary_response := some primary.response_id }
  | none => batch

/-! ## Concrete batch instances -/

/-- An agent subpipeline failing with an inference-endpoint error. -/
def runFail : String → Except PipelineError AgentResponse :=
  fun _ => Except.error (PipelineError.agentFailure "Groq API error: timeout")

/-- A batch slot whose inference call fails. -/
def failingTask : QueryTask :=
  { query := "q", agent_type := some "pest", run := runFail, elapsed_ms := 1 }

/-- The response produced for okTaskA (id "id-a", all other fields
default, stamped with its elapsed time). -/
def respA : AgentResponse := { response_id := "id-a", response_time_ms := 1 }

/-- A successful batch slot producing response id "id-a". -/
def okTaskA : QueryTask :=
  { query := "q1", agent_type := some "pest",
    run := fun _ => Except.ok { response_id := "id-a" }, elapsed_ms := 1 }

/-- A successful batch slot producing response id "id-b", tying with
okTaskA on urgency. -/
def okTaskB : QueryTask :=
  { query := "q2", agent_type := some "weather",
    run := fun _ => Except.ok { response_id := "id-b" }, elapsed_ms := 1 }

/-! ## Theorems for the claims (and their helper lemmas) -/

/-- Helper: the keyword-counting foldl of detect_emergency_indicators counts
exactly the keywords that pass the presence test. -/
theorem foldl_count_eq_filter_length (p : String → Bool) :
    ∀ (l : List String) (n : Nat),
      l.foldl (fun acc x => acc + (if p x then 1 else 0)) n
        = n + (l.filter p).length := by
  intro l
  induction l with
  | nil => intro n; simp
  | cons x xs ih =>
    intro n
    by_cases h : p x = true
    · simp [List.foldl, h, List.filter, ih]
      omega
    · simp only [List.foldl, List.filter]
      rw [if_neg (by simp [h]), ih]
      simp [h]

/-- C8: for every raw text, the emergency score equals the number of
distinct keywords of the fixed emergency set present as substrings of the
lowercased text, capped at 5, and the detected flag holds exactly when the
raw uncapped count exceeds 2 (the keyword list is duplicate-free, so the
count of list entries present is the count of distinct keywords present). -/
theorem c8_emergency_indicator_detection (text : String) :
    emergency_keywords.Nodup ∧
    (detect_emergency_indicators text).emergency_score
      = min 5 ((emergency_keywords.filter
          (fun kw => pyContains (pyLower text) kw)).length) ∧
    ((detect_emergency_indicators text).emergency_detected = true ↔
      2 < (emergency_keywords.filter
          (fun kw => pyContains (pyLower text) kw)).length) := by
  refine ⟨by decide, ?_, ?_⟩
  · simp only [detect_emergency_indicators]
    rw [foldl_count_eq_filter_length]
    simp
  · simp only [detect_emergency_indicators]
    rw [foldl_count_eq_filter_length]
    simp

/-- C7: the heuristic fallback is taken for input that is not valid JSON,
but on empty (or whitespace-only) input its summary is the empty string:
str.split always returns a non-empty list, so the non-empty default
"Agricultural advice provided" is dead code and the first line of the
stripped empty text — the empty string — becomes the summary. -/
theorem c7_empty_input_gives_empty_summary
    (decodeJson : String → Option StructuredResponse) :
    parse_response decodeJson "" = fallback_parse "" ∧
    (parse_response decodeJson "").summary = "" ∧
    (parse_response decodeJson " \n ").summary = "" := by
  have h0 : pyStartsWith (pyStrip "") "\x7b" = false := by decide
  have h1 : pyStartsWith (pyStrip " \n ") "\x7b" = false := by decide
  refine ⟨by simp [parse_response, h0], ?_, ?_⟩
  · simp only [parse_response, h0, if_neg, Bool.false_eq_true, if_false]
    decide
  · simp only [parse_response, h1, if_neg, Bool.false_eq_true, if_false]
    decide

/-- Helper: full case characterization of calculate_confidence. With two
bonuses the accumulated double is 8106479329266892 * 2 ^ (-53), one ulp
below the double 0.9, so the result is HIGH, not VERY_HIGH. -/
theorem calculate_confidence_eq (sr : StructuredResponse) :
    calculate_confidence sr =
      (if confidenceBonuses sr = 0 then Confidence.MEDIUM
       else if confidenceBonuses sr = 3 then Confidence.VERY_HIGH
       else Confidence.HIGH) := by
  unfold calculate_confidence confidenceBonuses
  by_cases h1 : sr.detailed_response ≠ "" ∧ pyLen sr.detailed_response > 100 <;>
    by_cases h2 : sr.action_items ≠ [] <;>
    by_cases h3 : sr.confidence = "high" <;>
    simp [h1, h2, h3] <;>
    decide

/-- Helper: full case characterization of the spec-worded scorer: 0 bonuses
map to MEDIUM, exactly 1 to HIGH, and 2 or 3 to VERY_HIGH (with two bonuses
the exact score is 0.9, on the VERY_HIGH threshold). -/
theorem calculate_confidence_specWords_eq (sr : StructuredResponse) :
    calculate_confidence_specWords sr =
      (if (if pyLen sr.detailed_response > 100 then 1 else 0) +
          (if sr.action_items ≠ [] then 1 else 0) +
          (if sr.confidence = "high" then 1 else 0) = 0
       then Confidence.MEDIUM
       else if (if pyLen sr.detailed_response > 100 then (1:Nat) else 0) +
          (if sr.action_items ≠ [] then 1 else 0) +
          (if sr.confidence = "high" then 1 else 0) = 1
       then Confidence.HIGH
       else Confidence.VERY_HIGH) := by
  unfold calculate_confidence_specWords
  by_cases h1 : pyLen sr.detailed_response > 100 <;>
    by_cases h2 : sr.action_items ≠ [] <;>
    by_cases h3 : sr.confidence = "high" <;>
    simp [h1, h2, h3]

/-- C5 counterexample: with exactly two bonuses the code returns HIGH while
the thresholds of the spec, read in exact arithmetic, give 0.9 and demand
VERY_HIGH: the accumulated double 0.7 + 0.1 + 0.1 is one ulp below 0.9. -/
theorem c5_two_bonus_counterexample :
    calculate_confidence srTwoBonuses = Confidence.HIGH ∧
    calculate_confidence_specWords srTwoBonuses = Confidence.VERY_HIGH ∧
    calculate_confidence srTwoBonuses ≠ calculate_confidence_specWords srTwoBonuses := by
  refine ⟨by decide, by decide, by decide⟩

/-- C5 amended: the confidence category is the pure function of the three
inputs given by the number of bonuses — 0 bonuses MEDIUM, 1 or 2 bonuses
HIGH, 3 bonuses VERY_HIGH — and it agrees with the exact-arithmetic reading
of the spec everywhere except at exactly two bonuses, where floating-point
rounding leaves the score just below the 0.9 threshold. -/
theorem c5_confidence_mapping (sr : StructuredResponse) :
    calculate_confidence sr =
      (if confidenceBonuses sr = 0 then Confidence.MEDIUM
       else if confidenceBonuses sr = 3 then Confidence.VERY_HIGH
       else Confidence.HIGH) ∧
    (confidenceBonuses sr ≠ 2 →
      calculate_confidence sr = calculate_confidence_specWords sr) := by
  refine ⟨calculate_confidence_eq sr, fun h => ?_⟩
  rw [calculate_confidence_eq, calculate_confidence_specWords_eq]
  unfold confidenceBonuses at h ⊢
  by_cases hc1 : pyLen sr.detailed_response > 100
  · have hne : sr.detailed_response ≠ "" := by
      intro he
      rw [he] at hc1
      exact absurd hc1 (by decide)
    by_cases hc2 : sr.action_items ≠ [] <;>
      by_cases hc3 : sr.confidence = "high" <;>
      simp [hc1, hne, hc2, hc3] at h ⊢
  · by_cases hc2 : sr.action_items ≠ [] <;>
      by_cases hc3 : sr.confidence = "high" <;>
      simp [hc1, hc2, hc3] at h ⊢

/-- C5 witness: at one bonus both scorers agree on HIGH. -/
theorem c5_confidence_mapping_witness :
    calculate_confidence srOneBonus = Confidence.HIGH ∧
    calculate_confidence srOneBonus = calculate_confidence_specWords srOneBonus :=
  ⟨(c5_confidence_mapping srOneBonus).1.trans (by decide),
   (c5_confidence_mapping srOneBonus).2 (by decide)⟩

/-- C9: the confidence scorer can only produce MEDIUM, HIGH or VERY_HIGH —
the score starts at the double 0.7 (above the 0.5 MEDIUM threshold) and is
only ever increased, so LOW and VERY_LOW are unreachable. -/
theorem c9_confidence_never_low (sr : StructuredResponse) :
    calculate_confidence sr = Confidence.MEDIUM ∨
    calculate_confidence sr = Confidence.HIGH ∨
    calculate_confidence sr = Confidence.VERY_HIGH := by
  rw [calculate_confidence_eq]
  split_ifs <;> simp

/-- C6: the response category is decided by the fixed exclusive precedence
EMERGENCY, then WARNING, then ACTION_REQUIRED, then ADVISORY; each of the
four characterizations below shows that exactly the first matching rule
applies. -/
theorem c6_response_type_first_match (sr : StructuredResponse)
    (context : FarmContext) :
    (determine_response_type sr context = ResponseType.EMERGENCY ↔
      (context.is_emergency = true ∨
        sr.emergency_indicators.emergency_detected = true)) ∧
    (determine_response_type sr context = ResponseType.WARNING ↔
      (¬(context.is_emergency = true ∨
          sr.emergency_indicators.emergency_detected = true) ∧
        sr.emergency_indicators.emergency_score > 1)) ∧
    (determine_response_type sr context = ResponseType.ACTION_REQUIRED ↔
      (¬(context.is_emergency = true ∨
          sr.emergency_indicators.emergency_detected = true) ∧
        ¬sr.emergency_indicators.emergency_score > 1 ∧
        sr.action_items ≠ [])) ∧
    (determine_response_type sr context = ResponseType.ADVISORY ↔
      (¬(context.is_emergency = true ∨
          sr.emergency_indicators.emergency_detected = true) ∧
        ¬sr.emergency_indicators.emergency_score > 1 ∧
        sr.action_items = [])) := by
  unfold determine_response_type
  by_cases h1 : (context.is_emergency || sr.emergency_indicators.emergency_detected) = true <;>
    by_cases h2 : sr.emergency_indicators.emergency_score > 1 <;>
    by_cases h3 : sr.action_items = [] <;>
    simp_all <;>
    rw [if_neg (show ¬1 < sr.emergency_indicators.emergency_score by omega)] <;>
    simp

/-- C2: with emergency level at least 4 and a positive pest keyword score,
the selector returns the pest profile, whatever the other scores are. -/
theorem c2_pest_override (query : String) (context : FarmContext)
    (h4 : 4 ≤ context.emergency_level)
    (hp : 0 < keywordScore pest_keywords (pyLower query)) :
    select_best_agent query context = "pest" := by
  unfold select_best_agent
  simp [h4, hp]

/-- C2 witness: a level-4 context and a query whose weather score (3)
strictly exceeds its pest score (1) still routes to pest. -/
theorem c2_pest_override_witness :
    4 ≤ (FarmContext.mk 4).emergency_level ∧
    0 < keywordScore pest_keywords (pyLower "insect in rain storm flood") ∧
    keywordScore pest_keywords (pyLower "insect in rain storm flood") <
      keywordScore weather_keywords (pyLower "insect in rain storm flood") ∧
    select_best_agent "insect in rain storm flood" (FarmContext.mk 4) = "pest" :=
  ⟨by decide, by decide, by decide,
    c2_pest_override "insect in rain storm flood" (FarmContext.mk 4)
      (by decide) (by decide)⟩

/-- C1: whenever the try-block fails — unknown profile, inference-endpoint
error, any other pipeline exception — process_query returns the substitute
response instead of propagating: category EMERGENCY for an emergency
context and ADVISORY otherwise, confidence low, and a summary carrying the
failure text. -/
theorem c1_failure_gives_substitute_response (query : String)
    (context : FarmContext) (agent_type : Option String)
    (run : String → Except PipelineError AgentResponse)
    (elapsed_ms max_response_time_s : ℤ) (e : PipelineError)
    (hfail : process_query_attempt query context agent_type run
      elapsed_ms max_response_time_s = Except.error e) :
    process_query query context agent_type run elapsed_ms max_response_time_s
      = error_response e context elapsed_ms ∧
    categoryOfString (process_query query context agent_type run elapsed_ms
      max_response_time_s).response_type
      = (if context.is_emergency then ResponseType.EMERGENCY
         else ResponseType.ADVISORY) ∧
    (process_query query context agent_type run elapsed_ms
      max_response_time_s).confidence_score = "low" ∧
    (process_query query context agent_type run elapsed_ms
      max_response_time_s).summary = "System error: " ++ e.text := by
  unfold process_query
  rw [hfail]
  refine ⟨rfl, ?_, rfl, rfl⟩
  unfold error_response categoryOfString
  cases hc : context.is_emergency <;> simp [hc]

/-- C1 witness: an unknown profile name on a non-emergency context yields
the ADVISORY-decoded substitute response. -/
theorem c1_failure_gives_substitute_response_witness :
    process_query "hello" (FarmContext.mk 0) (some "plough")
        (fun _ => Except.error (PipelineError.agentFailure "boom")) 5 1
      = error_response (PipelineError.unknownAgent "plough")
          (FarmContext.mk 0) 5 ∧
    categoryOfString (process_query "hello" (FarmContext.mk 0) (some "plough")
        (fun _ => Except.error (PipelineError.agentFailure "boom"))
        5 1).response_type = ResponseType.ADVISORY ∧
    (process_query "hello" (FarmContext.mk 0) (some "plough")
        (fun _ => Except.error (PipelineError.agentFailure "boom"))
        5 1).confidence_score = "low" ∧
    (process_query "hello" (FarmContext.mk 0) (some "plough")
        (fun _ => Except.error (PipelineError.agentFailure "boom"))
        5 1).summary = "System error: Unknown agent type: plough" := by
  have h := c1_failure_gives_substitute_response "hello" (FarmContext.mk 0)
    (some "plough") (fun _ => Except.error (PipelineError.agentFailure "boom"))
    5 1 (PipelineError.unknownAgent "plough") rfl
  refine ⟨h.1, ?_, h.2.2.1, h.2.2.2⟩
  rw [h.2.1]
  decide

/-- C3 counterexample: emergency context (level 5), budget 1 s, measured
time 99999 ms; the agent subpipeline returned a response, yet process_query
does not return it — the EmergencyTimeoutException raised by the timeout
check is caught by the same except-branch, which discards the computed
response and returns the substitute error response. -/
theorem c3_slow_emergency_counterexample :
    FarmContext.is_emergency (FarmContext.mk 5) = true ∧
    ((99999 : ℤ) > 1 * 1000) ∧
    runGood (select_best_agent "q" (FarmContext.mk 5)) = Except.ok rGood ∧
    process_query "q" (FarmContext.mk 5) none runGood 99999 1
      ≠ { rGood with response_time_ms := 99999 } ∧
    (process_query "q" (FarmContext.mk 5) none runGood 99999 1).summary
      = "System error: Emergency response timeout" := by
  refine ⟨by decide, by decide, rfl, by decide, by decide⟩

/-- C3 amended: when the context is in an emergency state and the measured
time exceeds the budget, the already-computed Agent Response is discarded:
process_query returns the substitute error response for the timeout
condition (category string "emergency", summary the timeout text). -/
theorem c3_slow_emergency_replaces_response (query : String)
    (context : FarmContext)
    (run : String → Except PipelineError AgentResponse)
    (elapsed_ms max_response_time_s : ℤ) (r : AgentResponse)
    (hem : context.is_emergency = true)
    (hslow : elapsed_ms > max_response_time_s * 1000)
    (hok : run (select_best_agent query context) = Except.ok r) :
    process_query query context none run elapsed_ms max_response_time_s
      = error_response
          (PipelineError.emergencyTimeout elapsed_ms max_response_time_s)
          context elapsed_ms ∧
    (process_query query context none run elapsed_ms
      max_response_time_s).response_type = "emergency" ∧
    (process_query query context none run elapsed_ms
      max_response_time_s).summary
      = "System error: Emergency response timeout" := by
  have hattempt : process_query_attempt query context none run elapsed_ms
      max_response_time_s
      = Except.error
          (PipelineError.emergencyTimeout elapsed_ms max_response_time_s) := by
    unfold process_query_attempt
    simp [hok, hem, hslow]
  unfold process_query
  rw [hattempt]
  refine ⟨rfl, ?_, rfl⟩
  unfold error_response
  simp [hem]

/-- C3 witness: the amended statement at the concrete slow-emergency
instance. -/
theorem c3_slow_emergency_replaces_response_witness :
    process_query "q" (FarmContext.mk 5) none runGood 99999 1
      = error_response (PipelineError.emergencyTimeout 99999 1)
          (FarmContext.mk 5) 99999 ∧
    (process_query "q" (FarmContext.mk 5) none runGood 99999 1).response_type
      = "emergency" ∧
    (process_query "q" (FarmContext.mk 5) none runGood 99999 1).summary
      = "System error: Emergency response timeout" :=
  c3_slow_emergency_replaces_response "q" (FarmContext.mk 5) runGood 99999 1
    rGood (by decide) (by decide) rfl

/-- Helper: filtering the all-ok gather list keeps every mapped value. -/
theorem filterMap_ok_map {α β : Type} (g : α → β) (l : List α) :
    (l.map (fun a => (Except.ok (g a) : Except PipelineError β))).filterMap
      okToOption = l.map g := by
  induction l with
  | nil => rfl
  | cons x xs ih => simp [List.filterMap_cons, okToOption, ih]

/-- Helper: the responses of a batch are exactly the process_query results
of its tasks, in submission order. -/
theorem batch_responses_eq (tasks : List QueryTask) (context : FarmContext)
    (max_response_time_s total_elapsed_ms : ℤ) :
    (process_batch_queries tasks context max_response_time_s
        total_elapsed_ms).responses
      = tasks.map (fun task => process_query task.query context
          task.agent_type task.run task.elapsed_ms max_response_time_s) := by
  unfold process_batch_queries gather_results
  rw [filterMap_ok_map]
  cases hfm : firstMaxBy calculate_urgency_score
      (tasks.map (fun task => process_query task.query context
        task.agent_type task.run task.elapsed_ms max_response_time_s)) <;>
    simp [hfm]

/-- Helper: the primary of a batch is the id of the Python-max element of
its responses, when any. -/
theorem batch_primary_eq (tasks : List QueryTask) (context : FarmContext)
    (max_response_time_s total_elapsed_ms : ℤ) :
    (process_batch_queries tasks context max_response_time_s
        total_elapsed_ms).primary_response
      = Option.map (fun r => r.response_id)
          (firstMaxBy calculate_urgency_score
            (process_batch_queries tasks context max_response_time_s
              total_elapsed_ms).responses) := by
  unfold process_batch_queries gather_results
  rw [filterMap_ok_map]
  cases hfm : firstMaxBy calculate_urgency_score
      (tasks.map (fun task => process_query task.query context
        task.agent_type task.run task.elapsed_ms max_response_time_s)) <;>
    simp [hfm]

/-- Helper: firstMaxBy returns none only on the empty list. -/
theorem firstMaxBy_eq_none {α : Type} (f : α → Nat) (l : List α) :
    firstMaxBy f l = none ↔ l = [] := by
  cases l <;> simp [firstMaxBy]

/-- Helper: the Python-max fold returns either the initial candidate (when
no element strictly beats it) or the first element that strictly beats the
initial candidate and is never strictly beaten afterwards. -/
theorem foldl_firstMax_spec {α : Type} (f : α → Nat) :
    ∀ (l : List α) (b : α),
      (l.foldl (fun best y => if f best < f y then y else best) b = b ∧
        ∀ y ∈ l, f y ≤ f b) ∨
      (∃ i : Fin l.length,
        l.foldl (fun best y => if f best < f y then y else best) b
          = l.get i ∧
        f b < f (l.get i) ∧
        (∀ j : Fin l.length, f (l.get j) ≤ f (l.get i)) ∧
        ∀ j : Fin l.length, (j : ℕ) < (i : ℕ) →
          f (l.get j) < f (l.get i)) := by
  intro l
  induction l with
  | nil => intro b; left; simp
  | cons y ys ih =>
    intro b
    by_cases hy : f b < f y
    · rcases ih y with ⟨heq, hall⟩ | ⟨i, heq, hlt, hall, hfirst⟩
      · right
        refine ⟨⟨0, Nat.succ_pos _⟩, ?_, hy, ?_, ?_⟩
        · rw [List.foldl_cons, if_pos hy, heq]
          rfl
        · rintro ⟨j, hj⟩
          cases j with
          | zero => exact le_refl _
          | succ k => exact hall _ (List.get_mem ys k (Nat.lt_of_succ_lt_succ hj))
        · rintro ⟨j, hj⟩ hjlt
          exact absurd hjlt (Nat.not_lt_zero j)
      · right
        refine ⟨⟨i.val + 1, Nat.succ_lt_succ i.isLt⟩, ?_, ?_, ?_, ?_⟩
        · rw [List.foldl_cons, if_pos hy, heq]
          exact congrArg ys.get (Fin.ext rfl)
        · exact lt_trans hy hlt
        · rintro ⟨j, hj⟩
          cases j with
          | zero => exact le_of_lt hlt
          | succ k => exact hall ⟨k, Nat.lt_of_succ_lt_succ hj⟩
        · rintro ⟨j, hj⟩ hjlt
          cases j with
          | zero => exact hlt
          | succ k => exact hfirst ⟨k, Nat.lt_of_succ_lt_succ hj⟩ (Nat.lt_of_succ_lt_succ hjlt)
    · rcases ih b with ⟨heq, hall⟩ | ⟨i, heq, hlt, hall, hfirst⟩
      · left
        constructor
        · rw [List.foldl_cons, if_neg hy, heq]
        · intro z hz
          rcases List.mem_cons.mp hz with hz | hz
          · rw [hz]; exact le_of_not_lt hy
          · exact hall z hz
      · right
        refine ⟨⟨i.val + 1, Nat.succ_lt_succ i.isLt⟩, ?_, hlt, ?_, ?_⟩
        · rw [List.foldl_cons, if_neg hy, heq]
          exact congrArg ys.get (Fin.ext rfl)
        · rintro ⟨j, hj⟩
          cases j with
          | zero => exact le_trans (le_of_not_lt hy) (le_of_lt hlt)
          | succ k => exact hall ⟨k, Nat.lt_of_succ_lt_succ hj⟩
        · rintro ⟨j, hj⟩ hjlt
          cases j with
          | zero => exact lt_of_le_of_lt (le_of_not_lt hy) hlt
          | succ k => exact hfirst ⟨k, Nat.lt_of_succ_lt_succ hj⟩ (Nat.lt_of_succ_lt_succ hjlt)

/-- Helper: the element chosen by firstMaxBy is in the list, carries the
maximal score, and every earlier element scores strictly less. -/
theorem firstMaxBy_mem_spec {α : Type} (f : α → Nat) (l : List α) (x : α)
    (h : firstMaxBy f l = some x) :
    ∃ i : Fin l.length, l.get i = x ∧
      (∀ j : Fin l.length, f (l.get j) ≤ f x) ∧
      ∀ j : Fin l.length, (j : ℕ) < (i : ℕ) → f (l.get j) < f x := by
  match l with
  | [] => simp [firstMaxBy] at h
  | y :: ys =>
    simp only [firstMaxBy, Option.some.injEq] at h
    rcases foldl_firstMax_spec f ys y with ⟨heq, hall⟩ | ⟨i, heq, hlt, hall, hfirst⟩
    · rw [heq] at h
      refine ⟨⟨0, Nat.succ_pos _⟩, h, ?_, ?_⟩
      · rintro ⟨j, hj⟩
        cases j with
        | zero => rw [← h]; exact le_refl _
        | succ k =>
          rw [← h]
          exact hall _ (List.get_mem ys k (Nat.lt_of_succ_lt_succ hj))
      · rintro ⟨j, hj⟩ hjlt
        exact absurd hjlt (Nat.not_lt_zero j)
    · rw [heq] at h
      refine ⟨⟨i.val + 1, Nat.succ_lt_succ i.isLt⟩, ?_, ?_, ?_⟩
      · rw [← h]
        exact congrArg ys.get (Fin.ext rfl)
      · rintro ⟨j, hj⟩
        cases j with
        | zero => rw [← h]; exact le_of_lt hlt
        | succ k => rw [← h]; exact hall ⟨k, Nat.lt_of_succ_lt_succ hj⟩
      · rintro ⟨j, hj⟩ hjlt
        cases j with
        | zero => rw [← h]; exact hlt
        | succ k => rw [← h]; exact hfirst ⟨k, Nat.lt_of_succ_lt_succ hj⟩ (Nat.lt_of_succ_lt_succ hjlt)

/-- C4 counterexample: a batch of N = 1 queries of which K = 1 raise
inference errors still yields 1 response (the substitute error response
built by process_query) and a designated primary — not the claimed
N - K = 0 responses and no primary. -/
theorem c4_failed_query_not_dropped_counterexample :
    runFail "pest"
      = Except.error (PipelineError.agentFailure "Groq API error: timeout") ∧
    (process_batch_queries [failingTask] (FarmContext.mk 0) 10 5).responses.length
      = 1 ∧
    (process_batch_queries [failingTask] (FarmContext.mk 0) 10 5).responses.length
      ≠ 1 - 1 ∧
    (process_batch_queries [failingTask] (FarmContext.mk 0) 10 5).primary_response
      ≠ none := by
  refine ⟨rfl, by decide, by decide, by decide⟩

/-- C4 amended: a batch of N queries always yields exactly N responses
(per-query failures are converted by process_query into substitute error
responses, never dropped), a primary is designated exactly when N > 0, and
the designated primary is the first response with maximal urgency score in
submission order. -/
theorem c4_batch_aggregation (tasks : List QueryTask) (context : FarmContext)
    (max_response_time_s total_elapsed_ms : ℤ) :
    (process_batch_queries tasks context max_response_time_s
      total_elapsed_ms).responses.length = tasks.length ∧
    ((process_batch_queries tasks context max_response_time_s
      total_elapsed_ms).primary_response = none ↔ tasks = []) ∧
    ∀ x : AgentResponse,
      firstMaxBy calculate_urgency_score
        (process_batch_queries tasks context max_response_time_s
          total_elapsed_ms).responses = some x →
      (process_batch_queries tasks context max_response_time_s
        total_elapsed_ms).primary_response = some x.response_id ∧
      ∃ i : Fin (process_batch_queries tasks context max_response_time_s
          total_elapsed_ms).responses.length,
        (process_batch_queries tasks context max_response_time_s
          total_elapsed_ms).responses.get i = x ∧
        (∀ j : Fin (process_batch_queries tasks context max_response_time_s
            total_elapsed_ms).responses.length,
          calculate_urgency_score
            ((process_batch_queries tasks context max_response_time_s
              total_elapsed_ms).responses.get j)
            ≤ calculate_urgency_score x) ∧
        ∀ j : Fin (process_batch_queries tasks context max_response_time_s
            total_elapsed_ms).responses.length,
          (j : ℕ) < (i : ℕ) →
          calculate_urgency_score
            ((process_batch_queries tasks context max_response_time_s
              total_elapsed_ms).responses.get j)
            < calculate_urgency_score x := by
  refine ⟨?_, ?_, ?_⟩
  · rw [batch_responses_eq]
    simp
  · rw [batch_primary_eq]
    constructor
    · intro h
      have hnone := Option.map_eq_none.mp h
      have hnil := (firstMaxBy_eq_none _ _).mp hnone
      rw [batch_responses_eq] at hnil
      exact List.map_eq_nil_iff.mp hnil
    · intro h
      subst h
      rw [batch_responses_eq]
      simp [firstMaxBy]
  · intro x hx
    refine ⟨?_, firstMaxBy_mem_spec _ _ _ hx⟩
    rw [batch_primary_eq, hx]
    rfl

/-- C4 witness: a two-task batch with an urgency tie keeps both responses
and designates the first-submitted one as primary. -/
theorem c4_batch_aggregation_witness :
    (process_batch_queries [okTaskA, okTaskB] (FarmContext.mk 0) 10
      5).responses.length = 2 ∧
    (process_batch_queries [okTaskA, okTaskB] (FarmContext.mk 0) 10
      5).primary_response = some "id-a" := by
  have h := c4_batch_aggregation [okTaskA, okTaskB] (FarmContext.mk 0) 10 5
  have hfm : firstMaxBy calculate_urgency_score
      (process_batch_queries [okTaskA, okTaskB] (FarmContext.mk 0) 10
        5).responses = some respA := by
    rw [batch_responses_eq]
    decide
  exact ⟨h.1, (h.2.2 respA hfm).1⟩

/-- C10: the batch response has exactly as many entries as there were
submitted queries — process_query converts every internal failure into a
substitute response instead of raising, so the isinstance filter never
drops a slot. -/
theorem c10_batch_preserves_length (tasks : List QueryTask)
    (context : FarmContext) (max_response_time_s total_elapsed_ms : ℤ) :
    (process_batch_queries tasks context max_response_time_s
      total_elapsed_ms).responses.length = tasks.length := by
  rw [batch_responses_eq]
  simp

end AgroMate
